import Mathlib

/-!
Verification of the live turn-by-turn navigation engine of the truckplanner-pro
repository (frontend/src/components/TurnByTurnNavigation.jsx and the
onRecalculateRoute collaborator of the route-planner page).

Modelling conventions for the shallow embedding:
* JavaScript numbers are modelled as real numbers (ℝ) wherever trigonometry is
  involved (geo math, the GPS sample handler) and as rationals (ℚ) for the
  heading smoother, whose arithmetic is purely rational; floating-point
  rounding is not modelled.
* `Math.round x` is `⌊x + 1/2⌋`; the JS remainder `a % b` truncates toward zero.
* `Date.now()` timestamps are integers (milliseconds).
* React state is carried explicitly: one GPS callback invocation is a function
  from the previous state and the incoming sample to the next state.  State
  variables read inside the callback are the values captured by the closure,
  i.e. the values from before the callback ran, exactly as in the source.
* Nullable inputs (`heading`/`speed` possibly null or NaN) are `Option ℝ`;
  fallible external calls are `Except`.
* JS truthiness tests on numbers (`d.lat && d.lon`, `totalDistance`) are
  nonzero tests; truthiness on objects is `Option.isSome`.
-/

open scoped Classical

set_option maxHeartbeats 1000000

noncomputable section

namespace TruckNav

/-- JS `Math.atan2 y x` on real arguments. -/
def atan2 (y x : ℝ) : ℝ :=
  if 0 < x then Real.arctan (y / x)
  else if x < 0 ∧ 0 ≤ y then Real.arctan (y / x) + Real.pi
  else if x < 0 ∧ y < 0 then Real.arctan (y / x) - Real.pi
  else if x = 0 ∧ 0 < y then Real.pi / 2
  else if x = 0 ∧ y < 0 then -(Real.pi / 2)
  else 0

/-- The local quantity `a` computed inside `calcDist`
(TurnByTurnNavigation.jsx, lines 162-166):
`a = sin(dLat/2)**2 + cos(lat1·π/180)·cos(lat2·π/180)·sin(dLon/2)**2`. -/
def havA (lat1 lon1 lat2 lon2 : ℝ) : ℝ :=
  Real.sin ((lat2 - lat1) * Real.pi / 180 / 2) ^ 2 +
    Real.cos (lat1 * Real.pi / 180) * Real.cos (lat2 * Real.pi / 180) *
      Real.sin ((lon2 - lon1) * Real.pi / 180 / 2) ^ 2

/-- `calcDist` from TurnByTurnNavigation.jsx (lines 162-166): haversine
great-circle distance in kilometres, `R * 2 * atan2(√a, √(1-a))` with
`R = 6371`. -/
def calcDist (lat1 lon1 lat2 lon2 : ℝ) : ℝ :=
  6371 * 2 * atan2 (Real.sqrt (havA lat1 lon1 lat2 lon2))
    (Real.sqrt (1 - havA lat1 lon1 lat2 lon2))

/-- The scan loop of `checkIfOffRoute` (lines 168-182).  The `minDist`
accumulator starts at JS `Infinity`, modelled as `none`; `dist < Infinity` is
always true and `Infinity > 50` is true. -/
def offRouteLoop (lat lon : ℝ) : List (ℝ × ℝ) → Option ℝ → Bool
  | [], none => true
  | [], some m => if 50 < m then true else false
  | pt :: rest, minDist =>
    let dist := calcDist lat lon pt.1 pt.2 * 1000
    let minDist' : Option ℝ :=
      match minDist with
      | none => some dist
      | some m => if dist < m then some dist else some m
    if dist < 50 then false else offRouteLoop lat lon rest minDist'

/-- `checkIfOffRoute` (lines 168-182): returns `false` for an empty route,
otherwise scans the route vertices, tracking the minimum vertex distance in
metres, short-circuiting to `false` as soon as a vertex is within 50 m, and
finally reports whether the minimum exceeds 50 m. -/
def checkIfOffRoute (route : List (ℝ × ℝ)) (lat lon : ℝ) : Bool :=
  if route.length = 0 then false
  else offRouteLoop lat lon route none

/-- The list of distances (in metres) from a sample to each route vertex;
`checkIfOffRoute` is characterised in terms of this list. -/
def vertexDistsM (route : List (ℝ × ℝ)) (lat lon : ℝ) : List ℝ :=
  route.map fun pt => calcDist lat lon pt.1 pt.2 * 1000

/-- Truncation toward zero, as used by the JS `%` operator. -/
def truncQ (q : ℚ) : ℤ :=
  if 0 ≤ q then ⌊q⌋ else ⌈q⌉

/-- JS remainder `a % b` on rationals (sign of the dividend). -/
def jsModQ (a b : ℚ) : ℚ :=
  a - b * truncQ (a / b)

/-- One run of the heading-smoothing effect in `MapFollower`
(TurnByTurnNavigation.jsx, lines 71-82), given the current smoothed heading
and a raw heading: deadband of 3° on the circular difference, exponential
smoothing with factor 0.15 taking the short way around 0/360, then
re-normalisation by `((x % 360) + 360) % 360`. -/
def headingStep (smooth h : ℚ) : ℚ :=
  let diff := |h - smooth|
  let normalizedDiff := if 180 < diff then 360 - diff else diff
  if 3 < normalizedDiff then
    let nh0 := smooth + (h - smooth) * (15 / 100)
    let nh1 := if 180 < h - smooth then smooth - (360 - h + smooth) * (15 / 100) else nh0
    let nh2 := if 180 < smooth - h then smooth + (360 - smooth + h) * (15 / 100) else nh1
    jsModQ (jsModQ nh2 360 + 360) 360
  else smooth

/-- JS `Math.round`: floor of `x + 1/2`. -/
def jsRound (x : ℝ) : ℤ := ⌊x + 1 / 2⌋

/-- One entry of `allDestinations`: a waypoint or the final destination. -/
structure Dest where
  name : String
  lat : ℝ
  lon : ℝ
  isRestStop : Bool

/-- The per-session configuration captured from the component props:
the route polyline, the combined destination list, the final destination
coordinates and the total route distance in kilometres. -/
structure NavConfig where
  route : List (ℝ × ℝ)
  allDestinations : List Dest
  endCoords : Option (ℝ × ℝ)
  totalDistance : ℝ

/-- A normalized geolocation sample: `pos.coords` fields used by the
callback.  `heading`/`speed` are `none` when the device reports null or NaN. -/
structure PosSample where
  latitude : ℝ
  longitude : ℝ
  heading : Option ℝ
  speed : Option ℝ

/-- The React state of the navigation session that the GPS callback reads and
writes. -/
structure NavState where
  currentPosition : Option (ℝ × ℝ)
  heading : ℝ
  speed : ℤ
  currentWaypointIndex : ℕ
  distanceToNextWaypoint : ℝ
  timeToNextWaypoint : ℤ
  nextWaypointName : String
  remainingDistance : ℝ
  progressPercent : ℝ
  remainingTime : ℤ
  isOffRoute : Bool
  showRecalculatePrompt : Bool

/-- `const avgSpeed = speed > 10 ? speed : 70;` (line 209), where `speed` is
the state variable captured by the closure. -/
def effectiveSpeed (speed : ℤ) : ℝ :=
  if 10 < (speed : ℝ) then (speed : ℝ) else 70

/-- `allDestinations[currentWaypointIndex] || allDestinations[0]` (line 152). -/
def currentDest (cfg : NavConfig) (idx : ℕ) : Option Dest :=
  match cfg.allDestinations.get? idx with
  | some d => some d
  | none => cfg.allDestinations.get? 0

/-- `currentDestination.name || "Ziel"` (line 215). -/
def destDisplayName (d : Dest) : String :=
  if d.name = "" then "Ziel" else d.name

/-- One invocation of the `watchPosition` success callback
(TurnByTurnNavigation.jsx, lines 202-242): position/heading/speed updates,
ETA and distance to the current destination, waypoint arrival and advance,
remaining distance / progress / ETA to the final destination, and the
off-route edge detection.  All state reads are the closure-captured values of
the previous state, exactly as in the source; in particular `avgSpeed` reads
the `speed` state variable, not the incoming sample. -/
def sessionStep (cfg : NavConfig) (st : NavState) (p : PosSample) : NavState :=
  let st1 := { st with currentPosition := some (p.latitude, p.longitude) }
  let st2 := match p.heading with
    | some h => { st1 with heading := h }
    | none => st1
  let st3 := match p.speed with
    | some s => { st2 with speed := jsRound (s * 3.6) }
    | none => st2
  let avgSpeed := effectiveSpeed st.speed
  let st4 := match currentDest cfg st.currentWaypointIndex with
    | some d =>
      if d.lat ≠ 0 ∧ d.lon ≠ 0 then
        let distToNext := calcDist p.latitude p.longitude d.lat d.lon
        let stA := { st3 with
          distanceToNextWaypoint := max 0 distToNext,
          timeToNextWaypoint := jsRound (distToNext / avgSpeed * 60),
          nextWaypointName := destDisplayName d }
        if distToNext < 0.2 ∧ st.currentWaypointIndex + 1 < cfg.allDestinations.length then
          { stA with currentWaypointIndex := st.currentWaypointIndex + 1 }
        else stA
      else st3
    | none => st3
  let st5 := match cfg.endCoords with
    | some e =>
      if cfg.totalDistance ≠ 0 then
        let remainingToEnd := calcDist p.latitude p.longitude e.1 e.2
        { st4 with
          remainingDistance := max 0 remainingToEnd,
          progressPercent :=
            min 100 ((cfg.totalDistance - remainingToEnd) / cfg.totalDistance * 100),
          remainingTime := jsRound (remainingToEnd / avgSpeed * 60) }
      else st4
    | none => st4
  let offRoute := checkIfOffRoute cfg.route p.latitude p.longitude
  if offRoute = true ∧ st.isOffRoute = false then
    { st5 with isOffRoute := true, showRecalculatePrompt := true }
  else st5

/-- Processing a whole stream of position samples in order. -/
def runSamples (cfg : NavConfig) (st : NavState) (ps : List PosSample) : NavState :=
  ps.foldl (sessionStep cfg) st

/-- The `useState` initial values of the session (lines 108-132). -/
def initialState (cfg : NavConfig) (startCoords : Option (ℝ × ℝ))
    (totalDuration : ℤ) : NavState where
  currentPosition := startCoords
  heading := 0
  speed := 0
  currentWaypointIndex := 0
  distanceToNextWaypoint := 0
  timeToNextWaypoint := 0
  nextWaypointName := ""
  remainingDistance := cfg.totalDistance
  progressPercent := 0
  remainingTime := totalDuration
  isOffRoute := false
  showRecalculatePrompt := false

/-- The state touched by `handleRecalculate`: the `lastRecalculateTime` ref
and the two session flags it clears. -/
structure RecalcState where
  lastRecalculateTime : ℤ
  isOffRoute : Bool
  showRecalculatePrompt : Bool
  deriving Repr, DecidableEq

/-- `handleRecalculate` (TurnByTurnNavigation.jsx, lines 184-196): guarded by
the presence of the `onRecalculateRoute` callback and a current position; a
trigger is accepted only when more than 30000 ms have elapsed since the last
accepted one, in which case the timestamp is recorded, both flags are cleared
and the external routing collaborator is invoked.  The second component
reports whether the external request was issued. -/
def handleRecalculate (hasCallback : Bool) (pos : Option (ℝ × ℝ)) (now : ℤ)
    (st : RecalcState) : RecalcState × Bool :=
  if hasCallback = true ∧ pos.isSome = true then
    if 30000 < now - st.lastRecalculateTime then
      (⟨now, false, false⟩, true)
    else (st, false)
  else (st, false)

/-- One route entry of the planner page state (src/unnamed/part_003). -/
structure PlannerRoute where
  geometry : List (ℝ × ℝ)
  distance_km : ℝ
  duration_minutes : ℤ
  instructions : List String

/-- The payload of a successful `/route/professional` response. -/
structure RouteResponse where
  geometry : List (ℝ × ℝ)
  distance_km : ℝ
  duration_minutes : ℝ
  instructions : List String

/-- The planner-page state mutated by `onRecalculateRoute`. -/
structure PlannerState where
  allRoutes : List PlannerRoute
  selectedRouteIndex : ℕ
  startCoords : Option (ℝ × ℝ)

/-- `toFixed(1)` modelled numerically: round to one decimal place. -/
def toFixed1 (x : ℝ) : ℝ := (jsRound (x * 10) : ℝ) / 10

/-- The `onRecalculateRoute` prop (src/unnamed/part_003, lines 1277-1316),
with the outcome of the awaited routing call made explicit: on success the
selected route entry is replaced (geometry with coordinates swapped from
[lon,lat] to [lat,lon], rounded distance and duration, new instructions) and
the start coordinates move to the new origin; on failure the `catch` block
swallows the error (an error toast only) and the state is left unchanged.
The function is total: no exception escapes to the caller. -/
def onRecalculateRoute (newStart : ℝ × ℝ)
    (response : Except String RouteResponse) (ps : PlannerState) : PlannerState :=
  match response with
  | Except.error _ => ps
  | Except.ok r =>
    let newGeometry := r.geometry.map fun c => (c.2, c.1)
    let updated := fun old : PlannerRoute =>
      { old with
        geometry := newGeometry
        distance_km := toFixed1 r.distance_km
        duration_minutes := jsRound r.duration_minutes
        instructions := r.instructions }
    { ps with
      allRoutes := ps.allRoutes.modify updated ps.selectedRouteIndex
      startCoords := some newStart }

/-- A recalculation trigger followed by the completion of the external routing
call it issues (if any): `handleRecalculate` runs synchronously, then, only
when a request was sent, `onRecalculateRoute` completes with the given
response.  The gate state and the planner state are returned. -/
def recalcRoundTrip (hasCallback : Bool) (pos : Option (ℝ × ℝ)) (now : ℤ)
    (st : RecalcState) (response : Except String RouteResponse)
    (ps : PlannerState) : RecalcState × PlannerState :=
  let r := handleRecalculate hasCallback pos now st
  match pos with
  | some c => if r.2 = true then (r.1, onRecalculateRoute c response ps) else (r.1, ps)
  | none => (r.1, ps)

/-- The state of the driving-time counter and the break-warning flag. -/
structure BreakState where
  drivingTime : ℕ
  showBreakWarning : Bool
  deriving Repr, DecidableEq

/-- One 60-second tick of the driving interval (lines 248-253):
`setDrivingTime(prev => { if (prev + 1 === 240) setShowBreakWarning(true);
return prev + 1; })`.  The second component reports whether the break-warning
event was raised by this tick. -/
def drivingTick (s : BreakState) : BreakState × Bool :=
  let raised := s.drivingTime + 1 = 240
  (⟨s.drivingTime + 1, if raised then true else s.showBreakWarning⟩, raised)

/-- Running `n` ticks, counting how many of them raised the break-warning
event. -/
def runTicks (s : BreakState) : ℕ → BreakState × ℕ
  | 0 => (s, 0)
  | n + 1 =>
    let r := runTicks s n
    let t := drivingTick r.1
    (t.1, r.2 + if t.2 then 1 else 0)

/-- The latitude (in degrees) whose meridian arc from the equator measures
exactly 49 m under `calcDist`. -/
def phi49 : ℝ := 49 * 180 / (6371000 * Real.pi)

/-- The longitude (in degrees) whose equatorial arc from the prime meridian
measures exactly 51 m under `calcDist`. -/
def lon51 : ℝ := 51 * 180 / (6371000 * Real.pi)

/-- The longitude (in degrees) whose equatorial arc from the prime meridian
measures exactly 49 m under `calcDist`. -/
def lon49 : ℝ := 49 * 180 / (6371000 * Real.pi)

/-- The longitude (in degrees) whose equatorial arc from the prime meridian
measures exactly 100 km under `calcDist`. -/
def lon100 : ℝ := 18000 / (6371 * Real.pi)

/-- A straight-line two-point route along the equator, from (0°,0°) to
(0°,1°). -/
def routeEq : List (ℝ × ℝ) := [(0, 0), (0, 1)]

/-- For haversine values `a ∈ [0, 1)`, `calcDist` reduces to the arcsin form
`2 R arcsin √a`. -/
theorem calcDist_eq_arcsin (lat1 lon1 lat2 lon2 : ℝ)
    (h0 : 0 ≤ havA lat1 lon1 lat2 lon2) (h1 : havA lat1 lon1 lat2 lon2 < 1) :
    calcDist lat1 lon1 lat2 lon2 =
      6371 * 2 * Real.arcsin (Real.sqrt (havA lat1 lon1 lat2 lon2)) := by
  set a := havA lat1 lon1 lat2 lon2 with ha
  set θ := Real.arcsin (Real.sqrt a) with hθ
  have hsle : Real.sqrt a ≤ 1 := by
    have := Real.sqrt_le_sqrt h1.le
    simpa [Real.sqrt_one] using this
  have hslt : Real.sqrt a < 1 := by
    rw [Real.sqrt_lt' one_pos]
    simpa using h1
  have hs : Real.sin θ = Real.sqrt a :=
    Real.sin_arcsin (le_trans (by norm_num) (Real.sqrt_nonneg a)) hsle
  have hθ0 : 0 ≤ θ := Real.arcsin_nonneg.2 (Real.sqrt_nonneg a)
  have hθlt : θ < Real.pi / 2 := Real.arcsin_lt_pi_div_two.2 hslt
  have hc : Real.cos θ = Real.sqrt (1 - a) := by
    rw [hθ, Real.cos_arcsin, Real.sq_sqrt h0]
  have hπ : (0 : ℝ) < Real.pi := Real.pi_pos
  have hcpos : 0 < Real.cos θ := Real.cos_pos_of_mem_Ioo ⟨by linarith, hθlt⟩
  unfold calcDist atan2
  rw [← ha, ← hs, ← hc, if_pos hcpos, ← Real.tan_eq_sin_div_cos,
    Real.arctan_tan (by linarith) hθlt]

/-- When the haversine value is `sin t ^ 2` with `t ∈ [0, π/2)`, the arcsin
form evaluates to the central angle `t` itself. -/
theorem arcsin_sqrt_sin_sq (t : ℝ) (h0 : 0 ≤ t) (h1 : t < Real.pi / 2) :
    Real.arcsin (Real.sqrt (Real.sin t ^ 2)) = t := by
  have hπ : (0 : ℝ) < Real.pi := Real.pi_pos
  have hsin : 0 ≤ Real.sin t :=
    Real.sin_nonneg_of_nonneg_of_le_pi h0 (by linarith)
  rw [Real.sqrt_sq hsin, Real.arcsin_sin (by linarith) h1.le]

/-- `sin t ^ 2 < 1` for `t ∈ [0, π/2)`. -/
theorem sin_sq_lt_one (t : ℝ) (h0 : 0 ≤ t) (h1 : t < Real.pi / 2) :
    Real.sin t ^ 2 < 1 := by
  have hπ : (0 : ℝ) < Real.pi := Real.pi_pos
  have hlt : Real.sin t < 1 := by
    have := Real.sin_lt_sin_of_lt_of_le_pi_div_two (x := t) (y := Real.pi / 2)
      (by linarith) le_rfl h1
    simpa [Real.sin_pi_div_two] using this
  have hsin : 0 ≤ Real.sin t :=
    Real.sin_nonneg_of_nonneg_of_le_pi h0 (by linarith)
  nlinarith

/-- The haversine value of two equatorial points. -/
theorem havA_equator (l1 l2 : ℝ) :
    havA 0 l1 0 l2 = Real.sin ((l2 - l1) * Real.pi / 180 / 2) ^ 2 := by
  unfold havA
  norm_num

/-- The haversine value of two points on one meridian, one of them on the
equator. -/
theorem havA_meridian (lat l : ℝ) :
    havA lat l 0 l = Real.sin (lat * Real.pi / 180 / 2) ^ 2 := by
  unfold havA
  have h : (0 - lat) * Real.pi / 180 / 2 = -(lat * Real.pi / 180 / 2) := by ring
  rw [h, Real.sin_neg]
  norm_num

/-- Exact equatorial distance: for `0 ≤ l2 - l1 < 180` degrees of longitude,
`calcDist` between `(0°, l1)` and `(0°, l2)` is the arc `6371 · Δλ` (radians). -/
theorem calcDist_equator_exact (l1 l2 : ℝ) (h1 : l1 ≤ l2) (h2 : l2 - l1 < 180) :
    calcDist 0 l1 0 l2 = 6371 * ((l2 - l1) * Real.pi / 180) := by
  have hπ : (0 : ℝ) < Real.pi := Real.pi_pos
  set t := (l2 - l1) * Real.pi / 180 / 2 with ht
  have ht0 : 0 ≤ t := by
    have : 0 ≤ (l2 - l1) * Real.pi := mul_nonneg (by linarith) hπ.le
    rw [ht]; linarith
  have ht1 : t < Real.pi / 2 := by
    rw [ht]
    have : (l2 - l1) * Real.pi < 180 * Real.pi := by nlinarith
    linarith
  have key := calcDist_eq_arcsin 0 l1 0 l2
  rw [havA_equator, ← ht] at key
  rw [key (sq_nonneg _) (sin_sq_lt_one t ht0 ht1), arcsin_sqrt_sin_sq t ht0 ht1]
  rw [ht]; ring

/-- Exact meridian distance: for a latitude `0 ≤ lat < 180`, `calcDist`
between `(lat, l)` and `(0°, l)` is the arc `6371 · Δφ` (radians). -/
theorem calcDist_meridian_exact (lat l : ℝ) (h1 : 0 ≤ lat) (h2 : lat < 180) :
    calcDist lat l 0 l = 6371 * (lat * Real.pi / 180) := by
  have hπ : (0 : ℝ) < Real.pi := Real.pi_pos
  set t := lat * Real.pi / 180 / 2 with ht
  have ht0 : 0 ≤ t := by
    have : 0 ≤ lat * Real.pi := mul_nonneg h1 hπ.le
    rw [ht]; linarith
  have ht1 : t < Real.pi / 2 := by
    rw [ht]
    have : lat * Real.pi < 180 * Real.pi := by nlinarith
    linarith
  have key := calcDist_eq_arcsin lat l 0 l
  rw [havA_meridian, ← ht] at key
  rw [key (sq_nonneg _) (sin_sq_lt_one t ht0 ht1), arcsin_sqrt_sin_sq t ht0 ht1]
  rw [ht]; ring

/-- Lower bound on `calcDist` from a lower bound on the haversine value:
if `0 ≤ b ≤ a < 1` then the distance is at least `2 R √b`. -/
theorem calcDist_ge_sqrt (lat1 lon1 lat2 lon2 b : ℝ) (hb0 : 0 ≤ b)
    (hba : b ≤ havA lat1 lon1 lat2 lon2) (ha1 : havA lat1 lon1 lat2 lon2 < 1) :
    6371 * 2 * Real.sqrt b ≤ calcDist lat1 lon1 lat2 lon2 := by
  rw [calcDist_eq_arcsin lat1 lon1 lat2 lon2 (le_trans hb0 hba) ha1]
  have hmono : Real.sqrt b ≤ Real.sqrt (havA lat1 lon1 lat2 lon2) :=
    Real.sqrt_le_sqrt hba
  have hble : Real.sqrt b ≤ 1 := by
    have := Real.sqrt_le_sqrt (le_of_lt (lt_of_le_of_lt hba ha1))
    simpa [Real.sqrt_one] using this
  have hself : Real.sqrt b ≤ Real.arcsin (Real.sqrt b) := by
    have hθ0 : 0 ≤ Real.arcsin (Real.sqrt b) :=
      Real.arcsin_nonneg.2 (Real.sqrt_nonneg b)
    have := Real.sin_le hθ0
    rwa [Real.sin_arcsin (le_trans (by norm_num) (Real.sqrt_nonneg b)) hble] at this
  have harc : Real.arcsin (Real.sqrt b) ≤
      Real.arcsin (Real.sqrt (havA lat1 lon1 lat2 lon2)) :=
    Real.monotone_arcsin hmono
  nlinarith

/-- Invariant of the early-exit scan: the loop answers `true` exactly when
every remaining vertex distance exceeds 50 m and the accumulated minimum (if
any) does too. -/
theorem offRouteLoop_true_iff (lat lon : ℝ) (l : List (ℝ × ℝ)) (acc : Option ℝ) :
    offRouteLoop lat lon l acc = true ↔
      ((∀ d ∈ vertexDistsM l lat lon, 50 < d) ∧ ∀ m, acc = some m → 50 < m) := by
  induction l generalizing acc with
  | nil =>
    rcases acc with _ | m
    · simp [offRouteLoop, vertexDistsM]
    · simp only [offRouteLoop, vertexDistsM, List.map_nil, List.not_mem_nil,
        false_implies, implies_true, true_and, Option.some.injEq, forall_eq']
      split_ifs with h
      · simpa using h
      · simpa using h
  | cons pt rest ih =>
    have hcons : vertexDistsM (pt :: rest) lat lon =
        calcDist lat lon pt.1 pt.2 * 1000 :: vertexDistsM rest lat lon := by
      simp [vertexDistsM]
    rw [hcons, List.forall_mem_cons]
    show (if calcDist lat lon pt.1 pt.2 * 1000 < 50 then false
        else offRouteLoop lat lon rest
          (match acc with
            | none => some (calcDist lat lon pt.1 pt.2 * 1000)
            | some m => if calcDist lat lon pt.1 pt.2 * 1000 < m then
                some (calcDist lat lon pt.1 pt.2 * 1000) else some m)) = true ↔ _
    by_cases hd : calcDist lat lon pt.1 pt.2 * 1000 < 50
    · rw [if_pos hd]
      constructor
      · intro h; simp at h
      · rintro ⟨⟨h50, -⟩, -⟩
        exfalso; linarith
    · rw [if_neg hd]
      push_neg at hd
      rw [ih]
      rcases acc with _ | m
      · simp only [Option.some.injEq, forall_eq']
        constructor
        · rintro ⟨hall, h50⟩
          exact ⟨⟨h50, hall⟩, fun m hm => by cases hm⟩
        · rintro ⟨⟨h50, hall⟩, -⟩
          exact ⟨hall, h50⟩
      · dsimp only
        by_cases hlt : calcDist lat lon pt.1 pt.2 * 1000 < m
        · rw [if_pos hlt]
          simp only [Option.some.injEq, forall_eq']
          constructor
          · rintro ⟨hall, h50⟩
            exact ⟨⟨h50, hall⟩, by linarith⟩
          · rintro ⟨⟨h50, hall⟩, -⟩
            exact ⟨hall, h50⟩
        · rw [if_neg hlt]
          push_neg at hlt
          simp only [Option.some.injEq, forall_eq']
          constructor
          · rintro ⟨hall, h50⟩
            exact ⟨⟨by linarith, hall⟩, h50⟩
          · rintro ⟨⟨h50, hall⟩, hm⟩
            exact ⟨hall, hm⟩

/-- `checkIfOffRoute` is `true` exactly when the route is non-empty and every
vertex of the route is more than 50 m away from the sample. -/
theorem checkIfOffRoute_true_iff (route : List (ℝ × ℝ)) (lat lon : ℝ) :
    checkIfOffRoute route lat lon = true ↔
      route ≠ [] ∧ ∀ d ∈ vertexDistsM route lat lon, 50 < d := by
  unfold checkIfOffRoute
  split_ifs with h
  · rw [List.length_eq_zero] at h
    simp [h]
  · rw [List.length_eq_zero] at h
    rw [offRouteLoop_true_iff]
    simp [h]

/-- The GPS callback only ever raises the off-route flag: afterwards it is the
disjunction of the off-route check on the incoming sample with the previous
flag. -/
theorem sessionStep_isOffRoute (cfg : NavConfig) (st : NavState) (p : PosSample) :
    (sessionStep cfg st p).isOffRoute =
      (checkIfOffRoute cfg.route p.latitude p.longitude || st.isOffRoute) := by
  unfold sessionStep
  repeat' split
  all_goals cases hso : st.isOffRoute <;>
    cases hc : checkIfOffRoute cfg.route p.latitude p.longitude <;>
    simp_all [apply_ite NavState.isOffRoute, ite_self]

/-- The GPS callback leaves `showRecalculatePrompt` set or raises it together
with the off-route flag; it never clears it. -/
theorem sessionStep_prompt (cfg : NavConfig) (st : NavState) (p : PosSample) :
    (sessionStep cfg st p).showRecalculatePrompt =
      ((checkIfOffRoute cfg.route p.latitude p.longitude && !st.isOffRoute) ||
        st.showRecalculatePrompt) := by
  unfold sessionStep
  repeat' split
  all_goals cases hso : st.isOffRoute <;>
    cases hc : checkIfOffRoute cfg.route p.latitude p.longitude <;>
    simp_all [apply_ite NavState.showRecalculatePrompt, ite_self]

/-- The waypoint index after one sample: either unchanged, or advanced by one,
and an advance happens only when the resolved current destination has truthy
coordinates, the sample is within 0.2 km of it, and the index is not the last
one. -/
theorem sessionStep_idx_cases (cfg : NavConfig) (st : NavState) (p : PosSample) :
    (sessionStep cfg st p).currentWaypointIndex = st.currentWaypointIndex ∨
      ((sessionStep cfg st p).currentWaypointIndex = st.currentWaypointIndex + 1 ∧
        st.currentWaypointIndex + 1 < cfg.allDestinations.length ∧
        ∃ d, currentDest cfg st.currentWaypointIndex = some d ∧
          d.lat ≠ 0 ∧ d.lon ≠ 0 ∧
          calcDist p.latitude p.longitude d.lat d.lon < 0.2) := by
  rcases hdst : currentDest cfg st.currentWaypointIndex with _ | d
  · left
    unfold sessionStep
    simp only [hdst]
    repeat' split
    all_goals simp_all [apply_ite NavState.currentWaypointIndex, ite_self]
  · by_cases htr : d.lat ≠ 0 ∧ d.lon ≠ 0
    · by_cases hadv : calcDist p.latitude p.longitude d.lat d.lon < 0.2 ∧
        st.currentWaypointIndex + 1 < cfg.allDestinations.length
      · right
        refine ⟨?_, hadv.2, d, rfl, htr.1, htr.2, hadv.1⟩
        unfold sessionStep
        simp only [hdst]
        repeat' split
        all_goals simp_all [apply_ite NavState.currentWaypointIndex, ite_self]
      · left
        unfold sessionStep
        simp only [hdst]
        repeat' split
        all_goals simp_all [apply_ite NavState.currentWaypointIndex, ite_self]
    · left
      unfold sessionStep
      simp only [hdst]
      repeat' split
      all_goals simp_all [apply_ite NavState.currentWaypointIndex, ite_self]

/-- The progress/remaining block of the GPS callback, when the final
destination is present and `totalDistance` is truthy. -/
theorem sessionStep_final_block (cfg : NavConfig) (st : NavState) (p : PosSample)
    (e : ℝ × ℝ) (h1 : cfg.endCoords = some e) (h2 : cfg.totalDistance ≠ 0) :
    (sessionStep cfg st p).progressPercent =
      min 100 ((cfg.totalDistance - calcDist p.latitude p.longitude e.1 e.2) /
        cfg.totalDistance * 100) ∧
    (sessionStep cfg st p).remainingDistance =
      max 0 (calcDist p.latitude p.longitude e.1 e.2) ∧
    (sessionStep cfg st p).remainingTime =
      jsRound (calcDist p.latitude p.longitude e.1 e.2 / effectiveSpeed st.speed * 60) := by
  unfold sessionStep
  repeat' split
  all_goals simp_all [apply_ite NavState.progressPercent,
    apply_ite NavState.remainingDistance, apply_ite NavState.remainingTime, ite_self]

/-- The next-waypoint block of the GPS callback, when the current destination
resolves and has truthy coordinates. -/
theorem sessionStep_waypoint_block (cfg : NavConfig) (st : NavState) (p : PosSample)
    (d : Dest) (hd : currentDest cfg st.currentWaypointIndex = some d)
    (hlat : d.lat ≠ 0) (hlon : d.lon ≠ 0) :
    (sessionStep cfg st p).distanceToNextWaypoint =
      max 0 (calcDist p.latitude p.longitude d.lat d.lon) ∧
    (sessionStep cfg st p).timeToNextWaypoint =
      jsRound (calcDist p.latitude p.longitude d.lat d.lon / effectiveSpeed st.speed * 60) := by
  unfold sessionStep
  repeat' split
  all_goals simp_all [apply_ite NavState.distanceToNextWaypoint,
    apply_ite NavState.timeToNextWaypoint, ite_self]

/-- The stored speed after one sample: updated to the rounded km/h value when
the sample carries a speed, otherwise unchanged. -/
theorem sessionStep_speed (cfg : NavConfig) (st : NavState) (p : PosSample) :
    (sessionStep cfg st p).speed =
      (match p.speed with
        | some s => jsRound (s * 3.6)
        | none => st.speed) := by
  unfold sessionStep
  repeat' split
  all_goals simp only [apply_ite NavState.speed, ite_self]

/-- If a recalculation trigger issued a request, then the trigger was past the
cooldown and the gate state was reset to the trigger time with both flags
cleared. -/
theorem handleRecalculate_sent (cb : Bool) (p : Option (ℝ × ℝ)) (t : ℤ)
    (st : RecalcState) (h : (handleRecalculate cb p t st).2 = true) :
    (handleRecalculate cb p t st).1 = ⟨t, false, false⟩ ∧
      30000 < t - st.lastRecalculateTime := by
  unfold handleRecalculate at h ⊢
  split_ifs at h ⊢ with h1 h2
  all_goals simp_all

/-- C9: starting from a fresh session (counter 0, no warning), the first `n`
60-second ticks raise the break-warning event exactly once when `n` reaches
240 and never again afterwards; the counter is never reset by the engine (it
equals the number of ticks), and the warning flag is set exactly from the
240th tick on. -/
theorem c9_break_warning_one_shot (n : ℕ) :
    (runTicks ⟨0, false⟩ n).1.drivingTime = n ∧
    (runTicks ⟨0, false⟩ n).2 = (if 240 ≤ n then 1 else 0) ∧
    (runTicks ⟨0, false⟩ n).1.showBreakWarning = decide (240 ≤ n) := by
  induction n with
  | zero => simp [runTicks]
  | succ n ih =>
    obtain ⟨h1, h2, h3⟩ := ih
    simp only [runTicks, drivingTick, h1, h2, h3]
    rcases Nat.lt_trichotomy (n + 1) 240 with h | h | h
    all_goals split_ifs <;> simp_all <;> try omega

/-- C5: two recalculation triggers whose timestamps differ by less than
30000 ms send at most one request to the external routing collaborator: it is
impossible that both the first and the second trigger are accepted. -/
theorem c5_cooldown_at_most_one (cb1 cb2 : Bool) (p1 p2 : Option (ℝ × ℝ))
    (t1 t2 : ℤ) (st : RecalcState) (h1 : t1 ≤ t2) (h2 : t2 - t1 < 30000) :
    ¬((handleRecalculate cb1 p1 t1 st).2 = true ∧
      (handleRecalculate cb2 p2 t2 (handleRecalculate cb1 p1 t1 st).1).2 = true) := by
  rintro ⟨hs1, hs2⟩
  obtain ⟨hst, -⟩ := handleRecalculate_sent cb1 p1 t1 st hs1
  rw [hst] at hs2
  obtain ⟨-, hgap⟩ := handleRecalculate_sent cb2 p2 t2 ⟨t1, false, false⟩ hs2
  simp only at hgap
  omega

/-- Witness for C5 at a concrete input: triggers at 100000 ms and 110000 ms
(10 s apart) with the gate initially idle. -/
theorem c5_cooldown_at_most_one_witness :
    (100000 : ℤ) ≤ 110000 ∧ (110000 : ℤ) - 100000 < 30000 ∧
    ¬((handleRecalculate true (some ((0 : ℝ), (0 : ℝ))) 100000 ⟨0, false, false⟩).2 = true ∧
      (handleRecalculate true (some ((0 : ℝ), (0 : ℝ))) 110000
        (handleRecalculate true (some ((0 : ℝ), (0 : ℝ))) 100000 ⟨0, false, false⟩).1).2 = true) :=
  ⟨by norm_num, by norm_num,
    c5_cooldown_at_most_one true true _ _ 100000 110000 ⟨0, false, false⟩
      (by norm_num) (by norm_num)⟩

/-- C10: a recalculation trigger arriving at most 30000 ms after the last
accepted one is a complete no-op: the gate state (timestamp and both flags) is
returned unchanged, no request is sent, and a subsequent completion of the
(non-issued) external call leaves the planner state untouched as well. -/
theorem c10_cooldown_rejection_noop (cb : Bool) (p : Option (ℝ × ℝ)) (now : ℤ)
    (st : RecalcState) (resp : Except String RouteResponse) (ps : PlannerState)
    (h : now - st.lastRecalculateTime ≤ 30000) :
    handleRecalculate cb p now st = (st, false) ∧
      recalcRoundTrip cb p now st resp ps = (st, ps) := by
  have hmain : handleRecalculate cb p now st = (st, false) := by
    unfold handleRecalculate
    split_ifs with h1 h2
    · omega
    · rfl
    · rfl
  refine ⟨hmain, ?_⟩
  unfold recalcRoundTrip
  rw [hmain]
  cases p <;> simp

/-- Witness for C10 at a concrete input: a trigger exactly 30 s after the last
accepted one is rejected without any state change. -/
theorem c10_cooldown_rejection_noop_witness :
    (40000 : ℤ) - 10000 ≤ 30000 ∧
    (handleRecalculate true (some ((7 : ℝ), (8 : ℝ))) 40000 ⟨10000, true, true⟩ =
      (⟨10000, true, true⟩, false) ∧
     recalcRoundTrip true (some ((7 : ℝ), (8 : ℝ))) 40000 ⟨10000, true, true⟩
        (Except.error "network") ⟨[], 0, none⟩ =
      (⟨10000, true, true⟩, ⟨[], 0, none⟩)) :=
  ⟨by norm_num,
    c10_cooldown_rejection_noop true (some ((7 : ℝ), (8 : ℝ))) 40000
      ⟨10000, true, true⟩ (Except.error "network") ⟨[], 0, none⟩ (by norm_num)⟩

/-- The haversine value is symmetric in its two coordinates. -/
theorem havA_symm (lat1 lon1 lat2 lon2 : ℝ) :
    havA lat1 lon1 lat2 lon2 = havA lat2 lon2 lat1 lon1 := by
  unfold havA
  have h1 : (lat2 - lat1) * Real.pi / 180 / 2 = -((lat1 - lat2) * Real.pi / 180 / 2) := by
    ring
  have h2 : (lon2 - lon1) * Real.pi / 180 / 2 = -((lon1 - lon2) * Real.pi / 180 / 2) := by
    ring
  rw [h1, h2, Real.sin_neg, Real.sin_neg]
  ring

/-- `calcDist` is symmetric. -/
theorem calcDist_symm (lat1 lon1 lat2 lon2 : ℝ) :
    calcDist lat1 lon1 lat2 lon2 = calcDist lat2 lon2 lat1 lon1 := by
  unfold calcDist
  rw [havA_symm lat1 lon1 lat2 lon2]

theorem phi49_rad : phi49 * Real.pi / 180 = 49 / 6371000 := by
  unfold phi49
  field_simp [Real.pi_ne_zero]
  ring

theorem lon51_rad : lon51 * Real.pi / 180 = 51 / 6371000 := by
  unfold lon51
  field_simp [Real.pi_ne_zero]
  ring

theorem lon49_rad : lon49 * Real.pi / 180 = 49 / 6371000 := by
  unfold lon49
  field_simp [Real.pi_ne_zero]
  ring

theorem lon100_rad : lon100 * Real.pi / 180 = 100 / 6371 := by
  unfold lon100
  field_simp [Real.pi_ne_zero]
  ring

theorem phi49_pos : 0 < phi49 := by
  unfold phi49
  positivity

theorem phi49_small : phi49 < 1 / 2 := by
  unfold phi49
  rw [div_lt_iff₀ (by positivity)]
  nlinarith [Real.pi_gt_three]

theorem lon51_pos : 0 < lon51 := by
  unfold lon51
  positivity

theorem lon51_small : lon51 < 1 / 2 := by
  unfold lon51
  rw [div_lt_iff₀ (by positivity)]
  nlinarith [Real.pi_gt_three]

theorem lon49_pos : 0 < lon49 := by
  unfold lon49
  positivity

theorem lon49_small : lon49 < 1 / 2 := by
  unfold lon49
  rw [div_lt_iff₀ (by positivity)]
  nlinarith [Real.pi_gt_three]

theorem lon100_pos : 0 < lon100 := by
  unfold lon100
  positivity

theorem lon100_small : lon100 < 1 := by
  unfold lon100
  rw [div_lt_one (by positivity)]
  nlinarith [Real.pi_gt_three]

/-- The equatorial arc to longitude `lon100` is exactly 100 km. -/
theorem calcDist_lon100 : calcDist 0 0 0 lon100 = 100 := by
  rw [calcDist_equator_exact 0 lon100 lon100_pos.le (by linarith [lon100_small]),
    show (lon100 - 0) * Real.pi / 180 = lon100 * Real.pi / 180 by ring, lon100_rad]
  norm_num

/-- The meridian arc from latitude `phi49` down to the equator is exactly
49 m (0.049 km), at any longitude `l`: this is the perpendicular (cross-track)
distance of the sample `(phi49, l)` from the equatorial route line. -/
theorem calcDist_foot49 (l : ℝ) : calcDist phi49 l 0 l = 49 / 1000 := by
  rw [calcDist_meridian_exact phi49 l phi49_pos.le (by linarith [phi49_small]),
    phi49_rad]
  norm_num

/-- Distance from `(0°, lon51)` to the route vertex `(0°, 0°)`: exactly 51 m. -/
theorem calcDist_lon51_left : calcDist 0 lon51 0 0 = 51 / 1000 := by
  rw [calcDist_symm,
    calcDist_equator_exact 0 lon51 lon51_pos.le (by linarith [lon51_small]),
    show (lon51 - 0) * Real.pi / 180 = lon51 * Real.pi / 180 by ring, lon51_rad]
  norm_num

/-- Distance from `(0°, lon51)` to the far route vertex `(0°, 1°)`: at least
51 m. -/
theorem calcDist_lon51_right : 51 / 1000 ≤ calcDist 0 lon51 0 1 := by
  rw [calcDist_equator_exact lon51 1 (by linarith [lon51_small])
    (by linarith [lon51_pos])]
  have h1 : (1 : ℝ) / 2 ≤ 1 - lon51 := by linarith [lon51_small]
  have h2 := Real.pi_gt_three
  have h3 : (1 / 2 : ℝ) * 3 ≤ (1 - lon51) * Real.pi := by nlinarith
  nlinarith

/-- Distance from `(0°, lon49)` to the route vertex `(0°, 0°)`: exactly 49 m. -/
theorem calcDist_lon49_left : calcDist 0 lon49 0 0 = 49 / 1000 := by
  rw [calcDist_symm,
    calcDist_equator_exact 0 lon49 lon49_pos.le (by linarith [lon49_small]),
    show (lon49 - 0) * Real.pi / 180 = lon49 * Real.pi / 180 by ring, lon49_rad]
  norm_num

/-- Distance from `(0°, lon49)` to the far route vertex `(0°, 1°)`: at least
49 m. -/
theorem calcDist_lon49_right : 49 / 1000 ≤ calcDist 0 lon49 0 1 := by
  rw [calcDist_equator_exact lon49 1 (by linarith [lon49_small])
    (by linarith [lon49_pos])]
  have h1 : (1 : ℝ) / 2 ≤ 1 - lon49 := by linarith [lon49_small]
  have h2 := Real.pi_gt_three
  have h3 : (1 / 2 : ℝ) * 3 ≤ (1 - lon49) * Real.pi := by nlinarith
  nlinarith

/-- The haversine value between the 49 m-offset sample `(phi49, 1/2)` and an
equatorial point `(0°, lon2)`, in closed form. -/
theorem havA_phi49_eq (lon2 : ℝ) :
    havA phi49 (1 / 2) 0 lon2 =
      Real.sin ((49 : ℝ) / 12742000) ^ 2 +
        Real.cos ((49 : ℝ) / 6371000) *
          Real.sin ((lon2 - 1 / 2) * Real.pi / 180 / 2) ^ 2 := by
  unfold havA
  have hpi : phi49 * Real.pi = 8820 / 6371000 := by
    have h := phi49_rad
    nlinarith [h]
  have h1 : (0 - phi49) * Real.pi / 180 / 2 = -((49 : ℝ) / 12742000) := by
    have : (0 - phi49) * Real.pi / 180 / 2 = -(phi49 * Real.pi) / 360 := by ring
    rw [this, hpi]
    norm_num
  have h3 : (0 : ℝ) * Real.pi / 180 = 0 := by ring
  rw [h1, Real.sin_neg, phi49_rad, h3, Real.cos_zero]
  ring

/-- Quantitative bound: `sin (π/720) > 1/250`. -/
theorem sin_pi_div_720_lb : (1 / 250 : ℝ) < Real.sin (Real.pi / 720) := by
  have h7a : (0 : ℝ) < Real.pi / 720 := by positivity
  have h7b : Real.pi / 720 ≤ 1 := by linarith [Real.pi_lt_four]
  have hcube := Real.sin_gt_sub_cube h7a h7b
  have hlo : (3.141592 : ℝ) / 720 < Real.pi / 720 := by linarith [Real.pi_gt_d6]
  have hhi : Real.pi / 720 < (3.15 : ℝ) / 720 := by linarith [Real.pi_lt_d2]
  have hpow : (Real.pi / 720) ^ 3 ≤ ((3.15 : ℝ) / 720) ^ 3 :=
    pow_le_pow_left₀ (by positivity) hhi.le 3
  nlinarith

/-- Quantitative bound: `cos (49/6371000) > 1/2`. -/
theorem cos_small_lb : (1 / 2 : ℝ) < Real.cos ((49 : ℝ) / 6371000) := by
  have h := Real.one_sub_sq_div_two_le_cos (x := (49 : ℝ) / 6371000)
  nlinarith

/-- Both vertices of the equatorial route are more than 0.05 km away from the
49 m-offset sample `(phi49, 1/2)`: with vertex sampling the off-route check
sees only these two distances. -/
theorem calcDist_phi49_vertex (lon2 : ℝ)
    (hsq : Real.sin ((lon2 - 1 / 2) * Real.pi / 180 / 2) ^ 2 =
      Real.sin (Real.pi / 720) ^ 2) :
    (0.05 : ℝ) < calcDist phi49 (1 / 2) 0 lon2 := by
  have hAeq : havA phi49 (1 / 2) 0 lon2 =
      Real.sin ((49 : ℝ) / 12742000) ^ 2 +
        Real.cos ((49 : ℝ) / 6371000) * Real.sin (Real.pi / 720) ^ 2 := by
    rw [havA_phi49_eq, hsq]
  have hs := sin_pi_div_720_lb
  have hs0 : (0 : ℝ) < Real.sin (Real.pi / 720) := by linarith
  have hc := cos_small_lb
  have hsin1 : Real.sin ((49 : ℝ) / 12742000) ^ 2 ≤ ((49 : ℝ) / 12742000) ^ 2 :=
    Real.sin_sq_le_sq
  have hsin2 : Real.sin (Real.pi / 720) ^ 2 ≤ (Real.pi / 720) ^ 2 :=
    Real.sin_sq_le_sq
  have hpilt : Real.pi / 720 < (3.15 : ℝ) / 720 := by linarith [Real.pi_lt_d2]
  have hpow : (Real.pi / 720) ^ 2 ≤ ((3.15 : ℝ) / 720) ^ 2 :=
    pow_le_pow_left₀ (by positivity) hpilt.le 2
  have hcos1 : Real.cos ((49 : ℝ) / 6371000) ≤ 1 := Real.cos_le_one _
  have hA_lb : (1 / 125000 : ℝ) ≤ havA phi49 (1 / 2) 0 lon2 := by
    rw [hAeq]
    nlinarith [sq_nonneg (Real.sin ((49 : ℝ) / 12742000))]
  have hA_ub : havA phi49 (1 / 2) 0 lon2 < 1 := by
    rw [hAeq]
    nlinarith [sq_nonneg (Real.sin (Real.pi / 720))]
  have hge := calcDist_ge_sqrt phi49 (1 / 2) 0 lon2 (1 / 125000)
    (by norm_num) hA_lb hA_ub
  have hsqrt : (1 / 354 : ℝ) ≤ Real.sqrt (1 / 125000) := by
    rw [Real.le_sqrt (by norm_num) (by norm_num)]
    norm_num
  nlinarith

/-- The foot `(0°, l)` is the nearest point of the equatorial line to the
sample `(phi49, 1/2)` among all points `(0°, l)` with `l ∈ [0, 1]` (the
segment spanned by the two route vertices): the 49 m meridian arc is the
minimum — i.e. 49 m is the perpendicular distance of the sample from the
route line. -/
theorem calcDist_phi49_foot_min (l : ℝ) (h0 : 0 ≤ l) (h1 : l ≤ 1) :
    calcDist phi49 (1 / 2) 0 (1 / 2) ≤ calcDist phi49 (1 / 2) 0 l := by
  have hc := cos_small_lb
  have hsin1 : Real.sin ((49 : ℝ) / 12742000) ^ 2 ≤ ((49 : ℝ) / 12742000) ^ 2 :=
    Real.sin_sq_le_sq
  have harg : ((l - 1 / 2) * Real.pi / 180 / 2) ^ 2 ≤ (Real.pi / 720) ^ 2 := by
    have habs : |(l - 1 / 2) * Real.pi / 180 / 2| ≤ |Real.pi / 720| := by
      rw [abs_of_nonneg (by positivity : (0 : ℝ) ≤ Real.pi / 720)]
      rw [abs_le]
      constructor <;> nlinarith [Real.pi_pos]
    calc ((l - 1 / 2) * Real.pi / 180 / 2) ^ 2
        = |(l - 1 / 2) * Real.pi / 180 / 2| ^ 2 := (sq_abs _).symm
      _ ≤ |Real.pi / 720| ^ 2 := by
          apply pow_le_pow_left₀ (abs_nonneg _) habs
      _ = (Real.pi / 720) ^ 2 := by rw [sq_abs]
  have hsin2 : Real.sin ((l - 1 / 2) * Real.pi / 180 / 2) ^ 2 ≤ (Real.pi / 720) ^ 2 :=
    le_trans Real.sin_sq_le_sq harg
  have hpilt : Real.pi / 720 < (3.15 : ℝ) / 720 := by linarith [Real.pi_lt_d2]
  have hpow : (Real.pi / 720) ^ 2 ≤ ((3.15 : ℝ) / 720) ^ 2 :=
    pow_le_pow_left₀ (by positivity) hpilt.le 2
  have hcos1 : Real.cos ((49 : ℝ) / 6371000) ≤ 1 := Real.cos_le_one _
  have hub : ∀ m : ℝ, havA phi49 (1 / 2) 0 m =
      Real.sin ((49 : ℝ) / 12742000) ^ 2 +
        Real.cos ((49 : ℝ) / 6371000) *
          Real.sin ((m - 1 / 2) * Real.pi / 180 / 2) ^ 2 := havA_phi49_eq
  have hA_ub : havA phi49 (1 / 2) 0 l < 1 := by
    rw [hub l]
    nlinarith [sq_nonneg (Real.sin ((l - 1 / 2) * Real.pi / 180 / 2))]
  have hfoot : havA phi49 (1 / 2) 0 (1 / 2) =
      Real.sin ((49 : ℝ) / 12742000) ^ 2 := by
    rw [hub (1 / 2)]
    have hz : ((1 / 2 : ℝ) - 1 / 2) * Real.pi / 180 / 2 = 0 := by ring
    rw [hz, Real.sin_zero]
    ring
  have hfoot_ub : havA phi49 (1 / 2) 0 (1 / 2) < 1 := by
    rw [hfoot]
    nlinarith
  have hfoot_lb : 0 ≤ havA phi49 (1 / 2) 0 (1 / 2) := by
    rw [hfoot]
    positivity
  have hmono : havA phi49 (1 / 2) 0 (1 / 2) ≤ havA phi49 (1 / 2) 0 l := by
    rw [hfoot, hub l]
    nlinarith [sq_nonneg (Real.sin ((l - 1 / 2) * Real.pi / 180 / 2))]
  rw [calcDist_eq_arcsin phi49 (1 / 2) 0 (1 / 2) hfoot_lb hfoot_ub,
    calcDist_eq_arcsin phi49 (1 / 2) 0 l (le_trans hfoot_lb hmono) hA_ub]
  have harcs : Real.arcsin (Real.sqrt (havA phi49 (1 / 2) 0 (1 / 2))) ≤
      Real.arcsin (Real.sqrt (havA phi49 (1 / 2) 0 l)) :=
    Real.monotone_arcsin (Real.sqrt_le_sqrt hmono)
  nlinarith

/-- One sample never clears the off-route flag. -/
theorem sessionStep_isOffRoute_mono (cfg : NavConfig) (st : NavState)
    (p : PosSample) (h : st.isOffRoute = true) :
    (sessionStep cfg st p).isOffRoute = true := by
  rw [sessionStep_isOffRoute, h, Bool.or_true]

/-- C4: within one session, once `isOffRoute` is `true`, processing any
further sequence of position samples leaves it `true`: the GPS callback only
ever sets the flag (the off-route check is or-ed onto the previous value), and
nothing in the sample path clears it — samples that return within 50 m of the
route leave the flag set; only `handleRecalculate` (an accepted recalculation
trigger) assigns `false`. -/
theorem c4_offRoute_latching (cfg : NavConfig) (st : NavState)
    (ps : List PosSample) (h : st.isOffRoute = true) :
    (runSamples cfg st ps).isOffRoute = true := by
  revert st
  induction ps with
  | nil =>
    intro st h
    simpa [runSamples] using h
  | cons p rest ih =>
    intro st h
    simp only [runSamples, List.foldl_cons] at ih ⊢
    exact ih (sessionStep cfg st p) (sessionStep_isOffRoute_mono cfg st p h)

/-- Witness for C4 at a concrete input: a flagged session stays flagged after
one more sample. -/
theorem c4_offRoute_latching_witness :
    (⟨none, 0, 0, 0, 0, 0, "", 0, 0, 0, true, false⟩ : NavState).isOffRoute = true ∧
    (runSamples ⟨[], [], none, 0⟩ ⟨none, 0, 0, 0, 0, 0, "", 0, 0, 0, true, false⟩
      [⟨0, 0, none, none⟩]).isOffRoute = true :=
  ⟨rfl, c4_offRoute_latching ⟨[], [], none, 0⟩ _ [⟨0, 0, none, none⟩] rfl⟩

/-- C7: within one session, `currentWaypointIndex` never decreases across any
sequence of position samples and always remains a valid index into the
destination list; moreover a single sample changes it only by advancing it by
one, and only when the resolved destination has truthy coordinates, the
arrival distance is below 0.2 km and the index is not the last one. -/
theorem c7_waypoint_index_invariant (cfg : NavConfig) (st : NavState)
    (ps : List PosSample)
    (h : st.currentWaypointIndex < cfg.allDestinations.length) :
    (st.currentWaypointIndex ≤ (runSamples cfg st ps).currentWaypointIndex ∧
      (runSamples cfg st ps).currentWaypointIndex < cfg.allDestinations.length) ∧
    ∀ (st' : NavState) (p : PosSample),
      (sessionStep cfg st' p).currentWaypointIndex ≠ st'.currentWaypointIndex →
        ((sessionStep cfg st' p).currentWaypointIndex = st'.currentWaypointIndex + 1 ∧
          st'.currentWaypointIndex + 1 < cfg.allDestinations.length ∧
          ∃ d, currentDest cfg st'.currentWaypointIndex = some d ∧
            d.lat ≠ 0 ∧ d.lon ≠ 0 ∧
            calcDist p.latitude p.longitude d.lat d.lon < 0.2) := by
  constructor
  · revert st
    induction ps with
    | nil =>
      intro st h
      simp only [runSamples, List.foldl_nil]
      exact ⟨le_rfl, h⟩
    | cons p rest ih =>
      intro st h
      simp only [runSamples, List.foldl_cons] at ih ⊢
      have hstep := sessionStep_idx_cases cfg st p
      have hle : st.currentWaypointIndex ≤ (sessionStep cfg st p).currentWaypointIndex := by
        rcases hstep with h1 | ⟨h1, -, -⟩ <;> omega
      have hlt : (sessionStep cfg st p).currentWaypointIndex < cfg.allDestinations.length := by
        rcases hstep with h1 | ⟨h1, h2, -⟩ <;> omega
      obtain ⟨ih1, ih2⟩ := ih (sessionStep cfg st p) hlt
      exact ⟨le_trans hle ih1, ih2⟩
  · intro st' p hne
    rcases sessionStep_idx_cases cfg st' p with h1 | h1
    · exact absurd h1 hne
    · exact h1

/-- Witness for C7 at a concrete input: a single-destination session with one
sample keeps index 0 valid. -/
theorem c7_waypoint_index_invariant_witness :
    (0 : ℕ) < ([⟨"Ziel", 1, 1, false⟩] : List Dest).length ∧
    ((0 ≤ (runSamples ⟨[], [⟨"Ziel", 1, 1, false⟩], none, 0⟩
          ⟨none, 0, 0, 0, 0, 0, "", 0, 0, 0, false, false⟩
          [⟨0, 0, none, none⟩]).currentWaypointIndex ∧
      (runSamples ⟨[], [⟨"Ziel", 1, 1, false⟩], none, 0⟩
          ⟨none, 0, 0, 0, 0, 0, "", 0, 0, 0, false, false⟩
          [⟨0, 0, none, none⟩]).currentWaypointIndex <
        (⟨[], [⟨"Ziel", 1, 1, false⟩], none, 0⟩ : NavConfig).allDestinations.length) ∧
    ∀ (st' : NavState) (p : PosSample),
      (sessionStep ⟨[], [⟨"Ziel", 1, 1, false⟩], none, 0⟩ st' p).currentWaypointIndex ≠
          st'.currentWaypointIndex →
        ((sessionStep ⟨[], [⟨"Ziel", 1, 1, false⟩], none, 0⟩ st' p).currentWaypointIndex =
            st'.currentWaypointIndex + 1 ∧
          st'.currentWaypointIndex + 1 <
            (⟨[], [⟨"Ziel", 1, 1, false⟩], none, 0⟩ : NavConfig).allDestinations.length ∧
          ∃ d, currentDest ⟨[], [⟨"Ziel", 1, 1, false⟩], none, 0⟩ st'.currentWaypointIndex =
              some d ∧ d.lat ≠ 0 ∧ d.lon ≠ 0 ∧
            calcDist p.latitude p.longitude d.lat d.lon < 0.2)) :=
  ⟨by norm_num,
    c7_waypoint_index_invariant ⟨[], [⟨"Ziel", 1, 1, false⟩], none, 0⟩
      ⟨none, 0, 0, 0, 0, 0, "", 0, 0, 0, false, false⟩
      [⟨0, 0, none, none⟩] (by norm_num)⟩

/-- C3 (amended): with a final destination present and a positive
`totalDistance`, `progressPercent` after any sample is at most 100 — the code
clamps only from above with `Math.min(100, ...)`; there is no lower clamp, so
the claimed lower bound 0 fails (see the counterexample). -/
theorem c3_progress_upper_bound (cfg : NavConfig) (st : NavState) (p : PosSample)
    (e : ℝ × ℝ) (h1 : cfg.endCoords = some e) (h2 : 0 < cfg.totalDistance) :
    (sessionStep cfg st p).progressPercent ≤ 100 := by
  obtain ⟨hp, -, -⟩ := sessionStep_final_block cfg st p e h1 (ne_of_gt h2)
  rw [hp]
  exact min_le_left _ _

/-- Witness for C3 (amended) at a concrete input. -/
theorem c3_progress_upper_bound_witness :
    (⟨[], [], some (0, 1), 100⟩ : NavConfig).endCoords = some ((0 : ℝ), (1 : ℝ)) ∧
    (0 : ℝ) < 100 ∧
    (sessionStep ⟨[], [], some (0, 1), 100⟩
      (initialState ⟨[], [], some (0, 1), 100⟩ none 0)
      ⟨0, 0, none, none⟩).progressPercent ≤ 100 :=
  ⟨rfl, by norm_num,
    c3_progress_upper_bound ⟨[], [], some (0, 1), 100⟩
      (initialState ⟨[], [], some (0, 1), 100⟩ none 0)
      ⟨0, 0, none, none⟩ (0, 1) rfl (by norm_num)⟩

/-- C6 counterexample: with `smoothedHeading = 359°` and a raw heading of
`2°`, the circular difference is exactly 3°, which falls inside the `> 3`
deadband, so the smoothing update does not move the smoothed heading at all —
in particular it does not move it forward through 0° as the claim states. -/
theorem c6_heading_wraparound_counterexample : headingStep 359 2 = 359 := by
  norm_num [headingStep]

/-- C6 (amended): with `smoothedHeading = 359°`, a raw heading of `2°` differs
by exactly 3° (the short arc through 0°) and is absorbed by the deadband, so
the smoothed heading is unchanged; a raw heading beyond the deadband on the
other side of 0°, such as `5°`, moves the smoothed heading forward through 0°
along the 6° short arc by the smoothing factor 0.15 (359° → 359.9°, not
backward through 180°), and the result is re-normalized into [0, 360). -/
theorem c6_heading_wraparound_amended :
    headingStep 359 2 = 359 ∧
    headingStep 359 5 = 359 + (15 / 100) * 6 ∧
    359 < headingStep 359 5 ∧ headingStep 359 5 < 360 := by
  refine ⟨by norm_num [headingStep], ?_, ?_, ?_⟩
  all_goals norm_num [headingStep, jsModQ, truncQ]

/-- C1 (amended): off-route threshold with vertex sampling.  For a non-empty
route and a session not already flagged off-route, a position sample whose
minimum distance to the route's sampled vertices is exactly 51 m causes
`isOffRoute` to become `true`, and one whose minimum vertex distance is
exactly 49 m leaves it `false` (the off-route check computes the minimum
distance to the route's vertices — not to the polyline segments — at the
50 m threshold). -/
theorem c1_offRoute_vertex_threshold (cfg : NavConfig) (st : NavState)
    (p q : PosSample) (hso : st.isOffRoute = false) (hne : cfg.route ≠ [])
    (_hp51 : (51 : ℝ) ∈ vertexDistsM cfg.route p.latitude p.longitude)
    (hp51min : ∀ d ∈ vertexDistsM cfg.route p.latitude p.longitude, 51 ≤ d)
    (hq49 : (49 : ℝ) ∈ vertexDistsM cfg.route q.latitude q.longitude)
    (_hq49min : ∀ d ∈ vertexDistsM cfg.route q.latitude q.longitude, 49 ≤ d) :
    (sessionStep cfg st p).isOffRoute = true ∧
      (sessionStep cfg st q).isOffRoute = false := by
  constructor
  · rw [sessionStep_isOffRoute]
    have hc : checkIfOffRoute cfg.route p.latitude p.longitude = true := by
      rw [checkIfOffRoute_true_iff]
      exact ⟨hne, fun d hd => lt_of_lt_of_le (by norm_num) (hp51min d hd)⟩
    rw [hc]
    rfl
  · rw [sessionStep_isOffRoute]
    have hc : checkIfOffRoute cfg.route q.latitude q.longitude = false := by
      cases hb : checkIfOffRoute cfg.route q.latitude q.longitude
      · rfl
      · exfalso
        obtain ⟨-, hall⟩ := (checkIfOffRoute_true_iff _ _ _).1 hb
        have := hall 49 hq49
        norm_num at this
    rw [hc, hso]
    rfl

/-- Witness for C1 (amended) at concrete inputs: the equatorial two-point
route with samples on the equator at 51 m and 49 m from the nearer vertex. -/
theorem c1_offRoute_vertex_threshold_witness :
    (⟨none, 0, 0, 0, 0, 0, "", 0, 0, 0, false, false⟩ : NavState).isOffRoute = false ∧
    (⟨routeEq, [], none, 0⟩ : NavConfig).route ≠ [] ∧
    ((51 : ℝ) ∈ vertexDistsM routeEq 0 lon51 ∧
      ∀ d ∈ vertexDistsM routeEq 0 lon51, 51 ≤ d) ∧
    ((49 : ℝ) ∈ vertexDistsM routeEq 0 lon49 ∧
      ∀ d ∈ vertexDistsM routeEq 0 lon49, 49 ≤ d) ∧
    ((sessionStep ⟨routeEq, [], none, 0⟩
        ⟨none, 0, 0, 0, 0, 0, "", 0, 0, 0, false, false⟩
        ⟨0, lon51, none, none⟩).isOffRoute = true ∧
      (sessionStep ⟨routeEq, [], none, 0⟩
        ⟨none, 0, 0, 0, 0, 0, "", 0, 0, 0, false, false⟩
        ⟨0, lon49, none, none⟩).isOffRoute = false) := by
  have hmem51 : (51 : ℝ) ∈ vertexDistsM routeEq 0 lon51 := by
    simp only [vertexDistsM, routeEq, List.map_cons, List.map_nil, List.mem_cons,
      List.not_mem_nil, or_false]
    left
    rw [calcDist_lon51_left]
    norm_num
  have hmin51 : ∀ d ∈ vertexDistsM routeEq 0 lon51, 51 ≤ d := by
    intro d hd
    simp only [vertexDistsM, routeEq, List.map_cons, List.map_nil, List.mem_cons,
      List.not_mem_nil, or_false] at hd
    rcases hd with rfl | rfl
    · rw [calcDist_lon51_left]
      norm_num
    · have := calcDist_lon51_right
      linarith
  have hmem49 : (49 : ℝ) ∈ vertexDistsM routeEq 0 lon49 := by
    simp only [vertexDistsM, routeEq, List.map_cons, List.map_nil, List.mem_cons,
      List.not_mem_nil, or_false]
    left
    rw [calcDist_lon49_left]
    norm_num
  have hmin49 : ∀ d ∈ vertexDistsM routeEq 0 lon49, 49 ≤ d := by
    intro d hd
    simp only [vertexDistsM, routeEq, List.map_cons, List.map_nil, List.mem_cons,
      List.not_mem_nil, or_false] at hd
    rcases hd with rfl | rfl
    · rw [calcDist_lon49_left]
      norm_num
    · have := calcDist_lon49_right
      linarith
  refine ⟨rfl, by simp [routeEq], ⟨hmem51, hmin51⟩, ⟨hmem49, hmin49⟩, ?_⟩
  exact c1_offRoute_vertex_threshold ⟨routeEq, [], none, 0⟩
    ⟨none, 0, 0, 0, 0, 0, "", 0, 0, 0, false, false⟩
    ⟨0, lon51, none, none⟩ ⟨0, lon49, none, none⟩
    rfl (by simp [routeEq]) hmem51 hmin51 hmem49 hmin49

/-- C1 counterexample: the claim fails as stated.  The sample
`(phi49, 0.5°)` lies exactly 49 m perpendicular from the two-point
straight-line route along the equator from (0°,0°) to (0°,1°): its distance
to the foot `(0°, 0.5°)` on the line is exactly 0.049 km, and
`calcDist_phi49_foot_min` proves this is the minimum distance to the line.
Yet processing this sample in a session not flagged off-route sets
`isOffRoute` to `true`, because the off-route check samples only the two
route vertices, both about 36 km away. -/
theorem c1_offRoute_perp49_counterexample :
    calcDist phi49 (1 / 2) 0 (1 / 2) * 1000 = 49 ∧
    (sessionStep ⟨routeEq, [], none, 0⟩
      ⟨none, 0, 0, 0, 0, 0, "", 0, 0, 0, false, false⟩
      ⟨phi49, 1 / 2, none, none⟩).isOffRoute = true := by
  constructor
  · rw [calcDist_foot49]
    norm_num
  · rw [sessionStep_isOffRoute]
    have hc : checkIfOffRoute routeEq phi49 (1 / 2) = true := by
      rw [checkIfOffRoute_true_iff]
      refine ⟨by simp [routeEq], ?_⟩
      intro d hd
      simp only [vertexDistsM, routeEq, List.map_cons, List.map_nil, List.mem_cons,
        List.not_mem_nil, or_false] at hd
      rcases hd with rfl | rfl
      · have hv := calcDist_phi49_vertex 0 (by
          rw [show ((0 : ℝ) - 1 / 2) * Real.pi / 180 / 2 = -(Real.pi / 720) by ring,
            Real.sin_neg]
          ring)
        nlinarith
      · have hv := calcDist_phi49_vertex 1 (by
          rw [show ((1 : ℝ) - 1 / 2) * Real.pi / 180 / 2 = Real.pi / 720 by ring])
        nlinarith
    rw [hc]
    rfl

/-- C3 counterexample: the claim fails as stated.  With `totalDistance = 50`
km (positive) and the final destination 100 km away (the remaining distance
exceeds `totalDistance`, modelling GPS overshoot or driving away), the
resulting `progressPercent` is negative — the code clamps progress only from
above. -/
theorem c3_progress_counterexample :
    (0 : ℝ) < (⟨[], [], some (0, lon100), 50⟩ : NavConfig).totalDistance ∧
    calcDist 0 0 0 lon100 = 100 ∧
    (sessionStep ⟨[], [], some (0, lon100), 50⟩
      (initialState ⟨[], [], some (0, lon100), 50⟩ none 0)
      ⟨0, 0, none, none⟩).progressPercent < 0 := by
  refine ⟨by norm_num, calcDist_lon100, ?_⟩
  obtain ⟨hp, -, -⟩ := sessionStep_final_block ⟨[], [], some (0, lon100), 50⟩
    (initialState ⟨[], [], some (0, lon100), 50⟩ none 0) ⟨0, 0, none, none⟩
    (0, lon100) rfl (by norm_num)
  rw [hp]
  have hval : ((⟨[], [], some (0, lon100), 50⟩ : NavConfig).totalDistance -
      calcDist (⟨0, 0, none, none⟩ : PosSample).latitude
        (⟨0, 0, none, none⟩ : PosSample).longitude
        ((0 : ℝ), lon100).1 ((0 : ℝ), lon100).2) /
      (⟨[], [], some (0, lon100), 50⟩ : NavConfig).totalDistance * 100 = -100 := by
    dsimp only
    rw [calcDist_lon100]
    norm_num
  rw [hval]
  have := min_le_right (100 : ℝ) (-100)
  linarith

/-- C8 (amended): the ETA computations for the next waypoint and the final
destination use an effective speed derived from the session's stored speed
from before the sample (i.e. the previous sample's measured speed): that
stored speed when it exceeds 10 km/h and the constant 70 km/h otherwise; in
particular any sample processed while the stored speed is 5 km/h gets ETAs
computed with 70 km/h.  The incoming sample's own measured speed only takes
effect from the next sample on. -/
theorem c8_effective_speed_amended (cfg : NavConfig) (st : NavState)
    (p : PosSample) (e : ℝ × ℝ) (d : Dest)
    (h1 : cfg.endCoords = some e) (h2 : cfg.totalDistance ≠ 0)
    (h3 : currentDest cfg st.currentWaypointIndex = some d)
    (h4 : d.lat ≠ 0) (h5 : d.lon ≠ 0) :
    (sessionStep cfg st p).remainingTime =
      jsRound (calcDist p.latitude p.longitude e.1 e.2 /
        effectiveSpeed st.speed * 60) ∧
    (sessionStep cfg st p).timeToNextWaypoint =
      jsRound (calcDist p.latitude p.longitude d.lat d.lon /
        effectiveSpeed st.speed * 60) ∧
    effectiveSpeed 5 = 70 ∧
    (∀ v : ℤ, v ≤ 10 → effectiveSpeed v = 70) ∧
    (∀ v : ℤ, 10 < v → effectiveSpeed v = (v : ℝ)) := by
  obtain ⟨-, -, ht⟩ := sessionStep_final_block cfg st p e h1 h2
  obtain ⟨-, htw⟩ := sessionStep_waypoint_block cfg st p d h3 h4 h5
  refine ⟨ht, htw, by norm_num [effectiveSpeed], ?_, ?_⟩
  · intro v hv
    unfold effectiveSpeed
    rw [if_neg]
    exact_mod_cast not_lt.2 hv
  · intro v hv
    unfold effectiveSpeed
    rw [if_pos]
    exact_mod_cast hv

/-- Witness for C8 (amended) at a concrete input: one waypoint at (1°,1°),
final destination at (0°,1°), total distance 100 km, initial stored speed 0. -/
theorem c8_effective_speed_amended_witness :
    (⟨[], [⟨"Halt", 1, 1, false⟩], some (0, 1), 100⟩ : NavConfig).endCoords =
      some ((0 : ℝ), (1 : ℝ)) ∧
    (⟨[], [⟨"Halt", 1, 1, false⟩], some (0, 1), 100⟩ : NavConfig).totalDistance ≠ 0 ∧
    currentDest ⟨[], [⟨"Halt", 1, 1, false⟩], some (0, 1), 100⟩
      (initialState ⟨[], [⟨"Halt", 1, 1, false⟩], some (0, 1), 100⟩ none
        0).currentWaypointIndex = some ⟨"Halt", 1, 1, false⟩ ∧
    ((⟨"Halt", 1, 1, false⟩ : Dest).lat ≠ 0 ∧
      (⟨"Halt", 1, 1, false⟩ : Dest).lon ≠ 0) ∧
    ((sessionStep ⟨[], [⟨"Halt", 1, 1, false⟩], some (0, 1), 100⟩
        (initialState ⟨[], [⟨"Halt", 1, 1, false⟩], some (0, 1), 100⟩ none 0)
        ⟨0, 0, none, none⟩).remainingTime =
      jsRound (calcDist 0 0 (0 : ℝ) (1 : ℝ) /
        effectiveSpeed (initialState ⟨[], [⟨"Halt", 1, 1, false⟩], some (0, 1), 100⟩
          none 0).speed * 60) ∧
      (sessionStep ⟨[], [⟨"Halt", 1, 1, false⟩], some (0, 1), 100⟩
        (initialState ⟨[], [⟨"Halt", 1, 1, false⟩], some (0, 1), 100⟩ none 0)
        ⟨0, 0, none, none⟩).timeToNextWaypoint =
      jsRound (calcDist 0 0 (1 : ℝ) (1 : ℝ) /
        effectiveSpeed (initialState ⟨[], [⟨"Halt", 1, 1, false⟩], some (0, 1), 100⟩
          none 0).speed * 60) ∧
      effectiveSpeed 5 = 70 ∧
      (∀ v : ℤ, v ≤ 10 → effectiveSpeed v = 70) ∧
      (∀ v : ℤ, 10 < v → effectiveSpeed v = (v : ℝ))) :=
  ⟨rfl, by norm_num, rfl, ⟨by norm_num, by norm_num⟩,
    c8_effective_speed_amended ⟨[], [⟨"Halt", 1, 1, false⟩], some (0, 1), 100⟩
      (initialState ⟨[], [⟨"Halt", 1, 1, false⟩], some (0, 1), 100⟩ none 0)
      ⟨0, 0, none, none⟩ (0, 1) ⟨"Halt", 1, 1, false⟩
      rfl (by norm_num) rfl (by norm_num) (by norm_num)⟩

/-- C8 counterexample: the claim fails as stated.  A sample whose measured
speed is 30 m/s = 108 km/h (above the 10 km/h threshold) is processed while
the stored session speed is still 0, so the final-destination ETA over the
100 km remaining is computed with the 70 km/h fallback — `round(100/70·60) =
86 min` — and not with the sample's own 108 km/h, which would give
`round(100/108·60) = 56 min`. -/
theorem c8_effective_speed_counterexample :
    (sessionStep ⟨[], [], some (0, lon100), 100⟩
      (initialState ⟨[], [], some (0, lon100), 100⟩ none 0)
      ⟨0, 0, none, some 30⟩).speed = 108 ∧
    (10 : ℤ) < 108 ∧
    (sessionStep ⟨[], [], some (0, lon100), 100⟩
      (initialState ⟨[], [], some (0, lon100), 100⟩ none 0)
      ⟨0, 0, none, some 30⟩).remainingTime = 86 ∧
    jsRound ((100 : ℝ) / 108 * 60) = 56 ∧
    (86 : ℤ) ≠ 56 := by
  refine ⟨?_, by norm_num, ?_, ?_, by norm_num⟩
  · rw [sessionStep_speed]
    norm_num [jsRound]
  · obtain ⟨-, -, ht⟩ := sessionStep_final_block ⟨[], [], some (0, lon100), 100⟩
      (initialState ⟨[], [], some (0, lon100), 100⟩ none 0) ⟨0, 0, none, some 30⟩
      (0, lon100) rfl (by norm_num)
    rw [ht]
    have hval : calcDist (⟨0, 0, none, some 30⟩ : PosSample).latitude
        (⟨0, 0, none, some 30⟩ : PosSample).longitude
        ((0 : ℝ), lon100).1 ((0 : ℝ), lon100).2 /
        effectiveSpeed (initialState ⟨[], [], some (0, lon100), 100⟩ none 0).speed *
        60 = 600 / 7 := by
      dsimp only [initialState]
      rw [calcDist_lon100]
      norm_num [effectiveSpeed]
    rw [hval]
    norm_num [jsRound]
  · norm_num [jsRound]

/-- C2 (amended): when an off-route recalculation request has been accepted
(cooldown satisfied) and the external routing call then fails, the failure is
absorbed by the collaborator's catch block and does not propagate into the
position-sample loop (the round trip is a total function), and the planner
state is left unchanged; the session does not remain flagged, however: the
off-route flag and the prompt were already cleared synchronously when the
request was accepted, and the failure path does not restore them, so
`isOffRoute` is `false` afterwards (the next off-route sample will raise it
again). -/
theorem c2_recalc_failure_semantics (cb : Bool) (pos : Option (ℝ × ℝ))
    (now : ℤ) (st : RecalcState) (err : String) (ps : PlannerState)
    (hcb : cb = true) (hpos : pos.isSome = true)
    (hcool : 30000 < now - st.lastRecalculateTime) :
    recalcRoundTrip cb pos now st (Except.error err) ps =
      (⟨now, false, false⟩, ps) := by
  rcases pos with _ | c
  · simp at hpos
  · subst hcb
    unfold recalcRoundTrip handleRecalculate
    rw [if_pos ⟨rfl, rfl⟩, if_pos hcool]
    dsimp only
    unfold onRecalculateRoute
    rfl

/-- Witness for C2 (amended) at a concrete input. -/
theorem c2_recalc_failure_semantics_witness :
    (true = true) ∧ (some ((7 : ℝ), (8 : ℝ))).isSome = true ∧
    ((30000 : ℤ) < 40000 - (⟨0, true, true⟩ : RecalcState).lastRecalculateTime) ∧
    recalcRoundTrip true (some ((7 : ℝ), (8 : ℝ))) 40000 ⟨0, true, true⟩
      (Except.error "network") ⟨[], 0, none⟩ =
      (⟨40000, false, false⟩, ⟨[], 0, none⟩) :=
  ⟨rfl, rfl, by norm_num,
    c2_recalc_failure_semantics true (some ((7 : ℝ), (8 : ℝ))) 40000
      ⟨0, true, true⟩ "network" ⟨[], 0, none⟩ rfl rfl (by norm_num)⟩

/-- C2 counterexample: the claim fails as stated.  With the cooldown
satisfied and the session flagged off-route, an accepted recalculation whose
external call fails ends with `isOffRoute = false`, not `true`: the flag was
cleared when the request was issued and the failure path does not restore
it. -/
theorem c2_recalc_failure_counterexample :
    (30000 : ℤ) < 40000 - (⟨0, true, true⟩ : RecalcState).lastRecalculateTime ∧
    (⟨0, true, true⟩ : RecalcState).isOffRoute = true ∧
    (recalcRoundTrip true (some ((7 : ℝ), (8 : ℝ))) 40000 ⟨0, true, true⟩
      (Except.error "network") ⟨[], 0, none⟩).1.isOffRoute = false := by
  refine ⟨by norm_num, rfl, ?_⟩
  unfold recalcRoundTrip handleRecalculate
  rw [if_pos ⟨rfl, rfl⟩, if_pos (by norm_num : (30000 : ℤ) < 40000 - (⟨0, true, true⟩ : RecalcState).lastRecalculateTime)]
  dsimp only
  unfold onRecalculateRoute
  rfl

end TruckNav

end
